import Mathlib

/-!
Verification of the FiFoRe fish-feeding reminder controller (src/main.py).

The program is a MicroPython main loop driving one indicator LED and reading
one acknowledgment button.  Its mutable state is the pair of module-level
variables `feeding_required` (the controller state: `True` = NeedsFeeding,
`False` = Waiting) and `last_feeding_ticks`, together with the level of the
indicator output pin.  Each iteration of the `while True` loop is embedded
here as the pure function `tick`, taking the current monotonic tick value and
the current button level and returning the next state together with the
observable effects of the iteration (sleep duration, console messages).
-/

namespace FiFoRe

/-- Tick period of the MicroPython monotonic clock: `utime.ticks_ms` wraps
modulo `TICKS_PERIOD = 2 ^ 30 = 1073741824` (MicroPython `utime` semantics,
used by main.py lines 113 and 124). -/
def TICKS_PERIOD : ℕ := 1073741824

/-- Half the tick period, `2 ^ 29 = 536870912`. -/
def TICKS_HALF : ℕ := 536870912

/-- MicroPython `utime.ticks_diff(a, b)` (library function called at main.py
line 125): the signed tick difference reduced into `[-2 ^ 29, 2 ^ 29)`,
computed as `((a - b + 2 ^ 29) mod 2 ^ 30) - 2 ^ 29` with Python's
nonnegative remainder. -/
def ticks_diff (a b : ℕ) : ℤ :=
  (((a : ℤ) - (b : ℤ) + 536870912) % 1073741824) - 536870912

/-- Constant `ms_in_one_second` (main.py line 70). -/
def ms_in_one_second : ℕ := 1000

/-- Constant `ms_in_one_minute` (main.py line 71). -/
def ms_in_one_minute : ℕ := 1000 * 60

/-- Constant `ms_in_one_hour` (main.py line 72). -/
def ms_in_one_hour : ℕ := 1000 * 60 * 60

/-- The configuration variables `feed_delay_hr` and `feed_delay_min`
(main.py lines 59-60).  The file documents them as user-settable integers
greater than or equal to zero, so the embedding keeps them as parameters; the
values shipped in the repository are 6 and 0 (`defaultConfig`). -/
structure Config where
  feed_delay_hr : ℕ
  feed_delay_min : ℕ
deriving DecidableEq

/-- The configuration shipped in main.py lines 59-60: 6 hours, 0 minutes. -/
def defaultConfig : Config := ⟨6, 0⟩

/-- Derived constant `feed_delay_ms` (main.py line 67):
`(((feed_delay_hr * 60) + feed_delay_min) * 60) * 1000`. -/
def feed_delay_ms (c : Config) : ℕ :=
  (((c.feed_delay_hr * 60) + c.feed_delay_min) * 60) * 1000

/-- The mutable program state: `feeding_required` (main.py line 77, `True` =
NeedsFeeding, `False` = Waiting), `last_feeding_ticks` (line 80), and the
level of the indicator pin `feed_indicator` (line 90, `true` = HIGH/on). -/
structure State where
  feeding_required : Bool
  last_feeding_ticks : ℕ
  feed_indicator : Bool
deriving DecidableEq

/-- The power-on state (main.py lines 77, 80, 90): `feeding_required = True`,
`last_feeding_ticks = 0`, and the indicator pin initialised to the value of
`feeding_required`, hence on. -/
def initState : State := ⟨true, 0, true⟩

/-- Local `elapsed_ms` of the Waiting branch (main.py line 125):
`ticks_diff(current_ticks, last_feeding_ticks)`. -/
def elapsed_ms (now last : ℕ) : ℤ := ticks_diff now last

/-- Local `remaining_hours` (main.py line 130):
`feed_delay_hr - (elapsed_ms // ms_in_one_hour)` with Python floor
division. -/
def remaining_hours (c : Config) (elapsed : ℤ) : ℤ :=
  (c.feed_delay_hr : ℤ) - Int.fdiv elapsed (ms_in_one_hour : ℤ)

/-- Local `remaining_mins` (main.py line 131):
`feed_delay_min - (elapsed_ms - (remaining_hours * ms_in_one_hour)) //
ms_in_one_minute if feed_delay_min != 0 else 0`, with Python floor
division. -/
def remaining_mins (c : Config) (elapsed : ℤ) : ℤ :=
  if c.feed_delay_min ≠ 0 then
    (c.feed_delay_min : ℤ) -
      Int.fdiv (elapsed - remaining_hours c elapsed * (ms_in_one_hour : ℤ))
        (ms_in_one_minute : ℤ)
  else 0

/-- Observable outcome of one loop iteration: the next state, the duration
passed to `lightsleep` this iteration (0 when no sleep was invoked), whether
the acknowledgment message of line 119 was printed, and the pair
`(remaining_hours, remaining_mins)` printed by line 134 when the Waiting
branch ran (`none` in the NeedsFeeding branch, which prints no countdown). -/
structure TickOut where
  state : State
  sleepMs : ℕ
  fedMsg : Bool
  remaining : Option (ℤ × ℤ)
deriving DecidableEq

/-- One iteration of the main loop (main.py lines 104-146).  In the
NeedsFeeding branch (lines 106-119) the button is polled: if pressed, the
indicator is turned off, `last_feeding_ticks` is set to the current tick and
`feeding_required` is cleared; otherwise nothing changes.  In the Waiting
branch (lines 120-146) the elapsed time and the diagnostic countdown are
computed; if `feed_delay_ms <= elapsed_ms` the state transitions back to
NeedsFeeding with the indicator on and `continue` skips the sleep (line 143),
otherwise the state is untouched and `lightsleep(ms_in_one_minute)` runs. -/
def tick (c : Config) (s : State) (now : ℕ) (button : Bool) : TickOut :=
  if s.feeding_required then
    if button then
      { state := ⟨false, now, false⟩, sleepMs := 0, fedMsg := true,
        remaining := none }
    else
      { state := s, sleepMs := 0, fedMsg := false, remaining := none }
  else
    let elapsed := elapsed_ms now s.last_feeding_ticks
    let rh := remaining_hours c elapsed
    let rm := remaining_mins c elapsed
    if (feed_delay_ms c : ℤ) ≤ elapsed then
      { state := ⟨true, s.last_feeding_ticks, true⟩, sleepMs := 0,
        fedMsg := false, remaining := some (rh, rm) }
    else
      { state := s, sleepMs := ms_in_one_minute, fedMsg := false,
        remaining := some (rh, rm) }

/-- The states reachable from power-on by iterations of the main loop, for
arbitrary tick values and button levels supplied by the environment. -/
inductive Reachable (c : Config) : State → Prop where
  | init : Reachable c initState
  | step (s : State) (now : ℕ) (button : Bool) :
      Reachable c s → Reachable c (tick c s now button).state

/-- One loop iteration preserves agreement between the indicator level and
the `feeding_required` flag. -/
lemma tick_preserves_indicator (c : Config) (s : State) (now : ℕ)
    (button : Bool) (h : s.feed_indicator = s.feeding_required) :
    (tick c s now button).state.feed_indicator =
      (tick c s now button).state.feeding_required := by
  simp only [tick]
  split_ifs <;> simp_all

/-- Wraparound-safe forward difference: starting from any tick value `last`,
after a forward duration `e < 2 ^ 29` the wrapped tick counter reads
`(last + e) % 2 ^ 30`, and `ticks_diff` recovers exactly `e`. -/
lemma ticks_diff_forward (last e : ℕ) (h : e < 536870912) :
    ticks_diff ((last + e) % 1073741824) last = (e : ℤ) := by
  unfold ticks_diff
  omega

/-- C1: for every reachable state of the controller — the power-on initial
state and the state after every tick — the indicator output is on if and
only if the state is NeedsFeeding (`feeding_required` is true); no tick
leaves them diverged. -/
theorem indicator_iff_needs_feeding (c : Config) (s : State)
    (h : Reachable c s) :
    s.feed_indicator = true ↔ s.feeding_required = true := by
  have key : s.feed_indicator = s.feeding_required := by
    induction h with
    | init => rfl
    | step s' now button _ ih => exact tick_preserves_indicator c s' now button ih
  rw [key]

/-- Witness for C1 at the power-on state, which is reachable by
`Reachable.init`. -/
theorem indicator_iff_needs_feeding_witness :
    initState.feed_indicator = true ↔ initState.feeding_required = true :=
  indicator_iff_needs_feeding defaultConfig initState Reachable.init

/-- C2, behaviour of the code at the spec scenario: with the interval
configured as 6 hours 30 minutes, a Waiting tick with elapsed time 6h15m
(last ack at tick 0, now = 22500000) prints a countdown of 0 hour(s) and
-345 minute(s) — not the 15 minutes of the claim.  Line 131 subtracts
`remaining_hours * ms_in_one_hour` (here 0) from the elapsed time instead of
the elapsed whole hours, so the whole elapsed time in minutes (375) is
subtracted from the configured 30 minutes. -/
theorem remaining_diag_6h30m :
    (tick ⟨6, 30⟩ ⟨false, 0, false⟩ 22500000 false).remaining =
      some (0, -345) := by decide

/-- C3 counterexample: the claim quantifies over every interval, but with the
representable interval of 150 hours (540000000 ms, at least half the tick
period 2 ^ 30) and last ack T = 0, the tick at now = T + Interval stays in
Waiting instead of transitioning: `ticks_diff` folds the elapsed time to the
negative value -533741824, so `feed_delay_ms <= elapsed_ms` is false. -/
theorem threshold_inclusive_cex :
    feed_delay_ms ⟨150, 0⟩ = 540000000 ∧
      (tick ⟨150, 0⟩ ⟨false, 0, false⟩ ((0 + feed_delay_ms ⟨150, 0⟩) % 1073741824)
          false).state.feeding_required = false := by decide

/-- C3 amended: for every configuration whose interval is at least 1 ms and
less than half the tick period (2 ^ 29 ms) and every last-acknowledgment
tick T, a Waiting tick at now = (T + Interval - 1) mod 2 ^ 30 leaves the
state Waiting, and a Waiting tick at now = (T + Interval) mod 2 ^ 30
transitions it to NeedsFeeding (inclusive threshold). -/
theorem threshold_inclusive (c : Config) (T : ℕ) (ind b₁ b₂ : Bool)
    (h1 : 1 ≤ feed_delay_ms c) (h2 : feed_delay_ms c < 536870912) :
    (tick c ⟨false, T, ind⟩ ((T + (feed_delay_ms c - 1)) % 1073741824)
        b₁).state.feeding_required = false ∧
      (tick c ⟨false, T, ind⟩ ((T + feed_delay_ms c) % 1073741824)
        b₂).state.feeding_required = true := by
  constructor
  · have he := ticks_diff_forward T (feed_delay_ms c - 1) (by omega)
    have hlt : ¬ ((feed_delay_ms c : ℤ) ≤
        elapsed_ms ((T + (feed_delay_ms c - 1)) % 1073741824) T) := by
      rw [elapsed_ms, he]; omega
    simp [tick, hlt]
  · have he := ticks_diff_forward T (feed_delay_ms c) h2
    have hle : (feed_delay_ms c : ℤ) ≤
        elapsed_ms ((T + feed_delay_ms c) % 1073741824) T := by
      rw [elapsed_ms, he]
    simp [tick, hle]

/-- Witness for C3 (amended) at the shipped configuration (interval 6 h =
21600000 ms) and T = 0. -/
theorem threshold_inclusive_witness :
    (tick defaultConfig ⟨false, 0, false⟩
        ((0 + (feed_delay_ms defaultConfig - 1)) % 1073741824)
        false).state.feeding_required = false ∧
      (tick defaultConfig ⟨false, 0, false⟩
        ((0 + feed_delay_ms defaultConfig) % 1073741824)
        false).state.feeding_required = true :=
  threshold_inclusive defaultConfig 0 false false false (by decide) (by decide)

/-- C4 counterexample: the claim quantifies over every pair of tick values,
but for the pair now = 2 ^ 29, last = 0 — a forward duration of 2 ^ 29 ms —
the elapsed-time computation returns the negative value -2 ^ 29, not the
forward duration. -/
theorem elapsed_wraparound_cex :
    elapsed_ms 536870912 0 = -536870912 ∧ elapsed_ms 536870912 0 < 0 := by
  decide

/-- C4 amended: for every starting tick value `last` and every forward
duration e < 2 ^ 29 ms (half the tick period) — including every case where
the counter wraps past its maximum between last and now — the elapsed-time
computation of the Waiting branch applied to the wrapped counter
(last + e) mod 2 ^ 30 returns exactly e, never a spurious large or negative
value. -/
theorem elapsed_wraparound_correct (last e : ℕ) (h : e < 536870912) :
    elapsed_ms ((last + e) % 1073741824) last = (e : ℤ) :=
  ticks_diff_forward last e h

/-- Witness for C4 (amended) at a wrapping pair: last = 1073741820 is 4 ticks
below the wrap point and a forward duration of 10 ms wraps the counter to
6. -/
theorem elapsed_wraparound_correct_witness :
    elapsed_ms ((1073741820 + 10) % 1073741824) 1073741820 = (10 : ℤ) :=
  elapsed_wraparound_correct 1073741820 10 (by decide)

/-- C5: while the state is Waiting the acknowledgment input has no effect:
two ticks from the same Waiting state at the same current time, one with the
button pressed and one with it released, produce identical outcomes — same
state (hence same last-acknowledgment timestamp and indicator), same sleep,
same messages.  The Waiting branch of the loop never reads the button. -/
theorem waiting_ignores_button (c : Config) (s : State) (now : ℕ)
    (hs : s.feeding_required = false) :
    tick c s now true = tick c s now false := by
  simp [tick, hs]

/-- Witness for C5 at a concrete Waiting state. -/
theorem waiting_ignores_button_witness :
    tick defaultConfig ⟨false, 0, false⟩ 5 true =
      tick defaultConfig ⟨false, 0, false⟩ 5 false :=
  waiting_ignores_button defaultConfig ⟨false, 0, false⟩ 5 rfl

/-- C6: a tick that causes the Waiting-to-NeedsFeeding transition
(elapsed >= Interval) transitions the state and never invokes the low-power
wait in that same tick: the `continue` at line 143 skips `lightsleep`. -/
theorem no_wait_after_trigger (c : Config) (s : State) (now : ℕ)
    (button : Bool) (hs : s.feeding_required = false)
    (h : (feed_delay_ms c : ℤ) ≤ elapsed_ms now s.last_feeding_ticks) :
    (tick c s now button).state.feeding_required = true ∧
      (tick c s now button).sleepMs = 0 := by
  simp [tick, hs, h]

/-- Witness for C6: the shipped 6-hour interval with last ack at tick 0 and
now exactly 21600000. -/
theorem no_wait_after_trigger_witness :
    (tick defaultConfig ⟨false, 0, false⟩ 21600000 false).state.feeding_required = true ∧
      (tick defaultConfig ⟨false, 0, false⟩ 21600000 false).sleepMs = 0 :=
  no_wait_after_trigger defaultConfig ⟨false, 0, false⟩ 21600000 false rfl
    (by decide)

/-- C7: when the configured interval has a zero minutes part
(`feed_delay_min = 0`), every remaining-time diagnostic of a Waiting tick
emits 0 for the minutes component, whatever the actual remaining minutes:
the conditional expression of line 131 computes the minutes component only
when the configured minutes part is non-zero. -/
theorem minutes_component_suppressed (c : Config) (s : State) (now : ℕ)
    (button : Bool) (hmin : c.feed_delay_min = 0)
    (hs : s.feeding_required = false) :
    (tick c s now button).remaining =
      some (remaining_hours c (elapsed_ms now s.last_feeding_ticks), 0) := by
  have hrm : remaining_mins c (elapsed_ms now s.last_feeding_ticks) = 0 := by
    simp [remaining_mins, hmin]
  simp only [tick, hs]
  split_ifs <;> simp_all

/-- Witness for C7: the shipped configuration (minutes part 0) at elapsed
time 1 h, whose actual remaining time is 5 h exactly but whose remaining
minutes would be reported even so as 0. -/
theorem minutes_component_suppressed_witness :
    (tick defaultConfig ⟨false, 0, false⟩ 3600000 false).remaining =
      some (remaining_hours defaultConfig (elapsed_ms 3600000 0), 0) :=
  minutes_component_suppressed defaultConfig ⟨false, 0, false⟩ 3600000 false
    rfl rfl

/-- C8: a tick in the NeedsFeeding state never invokes the low-power wait or
any sleep — the button is polled with no wait — and any tick whatever sleeps
at most one wait quantum (`ms_in_one_minute`). -/
theorem needs_feeding_never_sleeps (c : Config) (s : State) (now : ℕ)
    (button : Bool) :
    (s.feeding_required = true → (tick c s now button).sleepMs = 0) ∧
      (tick c s now button).sleepMs ≤ ms_in_one_minute := by
  simp only [tick]
  split_ifs <;> simp_all [ms_in_one_minute]

/-- Witness for C8 at the power-on NeedsFeeding state. -/
theorem needs_feeding_never_sleeps_witness :
    (tick defaultConfig initState 0 false).sleepMs = 0 ∧
      (tick defaultConfig initState 0 false).sleepMs ≤ ms_in_one_minute :=
  ⟨(needs_feeding_never_sleeps defaultConfig initState 0 false).1 rfl,
    (needs_feeding_never_sleeps defaultConfig initState 0 false).2⟩

/-- C9: a Waiting tick whose elapsed time is strictly below the interval
changes nothing — the state (hence the last-acknowledgment timestamp and the
indicator) is returned unchanged, no acknowledgment message is printed, and
the tick performs the one-quantum wait. -/
theorem waiting_below_threshold_frame (c : Config) (s : State) (now : ℕ)
    (button : Bool) (hs : s.feeding_required = false)
    (h : elapsed_ms now s.last_feeding_ticks < (feed_delay_ms c : ℤ)) :
    (tick c s now button).state = s ∧
      (tick c s now button).sleepMs = ms_in_one_minute ∧
      (tick c s now button).fedMsg = false := by
  have h' : ¬ ((feed_delay_ms c : ℤ) ≤ elapsed_ms now s.last_feeding_ticks) :=
    not_le.mpr h
  simp [tick, hs, h']

/-- Witness for C9: the shipped 6-hour interval, last ack at tick 0, one tick
later. -/
theorem waiting_below_threshold_frame_witness :
    (tick defaultConfig ⟨false, 0, false⟩ 1 false).state = ⟨false, 0, false⟩ ∧
      (tick defaultConfig ⟨false, 0, false⟩ 1 false).sleepMs = ms_in_one_minute ∧
      (tick defaultConfig ⟨false, 0, false⟩ 1 false).fedMsg = false :=
  waiting_below_threshold_frame defaultConfig ⟨false, 0, false⟩ 1 false rfl
    (by decide)

/-- C10 counterexample: with the interval configured as 0 h 0 min, the claim
says no tick ever remains in Waiting, but the Waiting tick with last ack 0
and now = 2 ^ 30 - 1 computes the negative elapsed time -1, fails the
threshold test and remains Waiting, sleeping one quantum. -/
theorem zero_interval_cex :
    (tick ⟨0, 0⟩ ⟨false, 0, false⟩ 1073741823 false).state.feeding_required = false ∧
      (tick ⟨0, 0⟩ ⟨false, 0, false⟩ 1073741823 false).sleepMs =
        ms_in_one_minute := by decide

/-- C10 amended: with the interval configured as 0 hours and 0 minutes the
interval in milliseconds is 0, and every Waiting tick whose forward elapsed
duration since the last acknowledgment is below half the tick period
(e < 2 ^ 29 ms, covering every physically consecutive tick) satisfies
elapsed >= Interval and transitions back to NeedsFeeding with the indicator
on and no sleep. -/
theorem zero_interval_triggers (last e : ℕ) (ind button : Bool)
    (h : e < 536870912) :
    feed_delay_ms ⟨0, 0⟩ = 0 ∧
      (tick ⟨0, 0⟩ ⟨false, last, ind⟩ ((last + e) % 1073741824)
          button).state.feeding_required = true ∧
      (tick ⟨0, 0⟩ ⟨false, last, ind⟩ ((last + e) % 1073741824)
          button).state.feed_indicator = true ∧
      (tick ⟨0, 0⟩ ⟨false, last, ind⟩ ((last + e) % 1073741824)
          button).sleepMs = 0 := by
  refine ⟨rfl, ?_⟩
  have he := ticks_diff_forward last e h
  have hle : (feed_delay_ms ⟨0, 0⟩ : ℤ) ≤
      elapsed_ms ((last + e) % 1073741824) last := by
    rw [elapsed_ms, he]; simp [feed_delay_ms]
  simp [tick, hle]

/-- Witness for C10 (amended): last ack at tick 0, next tick 1 ms later. -/
theorem zero_interval_triggers_witness :
    feed_delay_ms ⟨0, 0⟩ = 0 ∧
      (tick ⟨0, 0⟩ ⟨false, 0, false⟩ ((0 + 1) % 1073741824)
          false).state.feeding_required = true ∧
      (tick ⟨0, 0⟩ ⟨false, 0, false⟩ ((0 + 1) % 1073741824)
          false).state.feed_indicator = true ∧
      (tick ⟨0, 0⟩ ⟨false, 0, false⟩ ((0 + 1) % 1073741824)
          false).sleepMs = 0 :=
  zero_interval_triggers 0 1 false false (by decide)

end FiFoRe
